import Mathlib

/-!
# Verification of the med-debt-optimizer repayment engine

A shallow embedding, in Lean 4, of the financial core of the
`med-debt-optimizer` repository (`src/core/constants.ts`,
`src/core/specialties.ts`, `src/core/calculations.ts`,
`src/core/strategies.ts`).

Modelling conventions:
* JavaScript `number` values are modelled as exact rationals (`ℚ`).
  All arithmetic in the engine is +, −, ×, ÷, integer powers, `Math.round`,
  `Math.floor`, `Math.ceil`, `Math.min`, `Math.max`, `Math.abs`, on values
  well inside the double-precision integer-exact range, so `ℚ` is the
  intended real-number semantics of the source.
* `Math.round` (round half toward +∞) is modelled by `jsRound q = ⌊q + 1/2⌋`.
* JavaScript's `x || y` fallback on a number-or-undefined `x` is modelled by
  `jsOr : Option ℚ → ℚ → ℚ`, which takes the fallback when `x` is `undefined`
  (`none`) **or** when `x` is the (falsy) number `0`.
* `Record<string, T>` lookup tables are association lists with `List.lookup`;
  a missing key is `none` (JavaScript `undefined`).
* Loop counters and year indices that the source only ever uses as
  non-negative integers (`trainingYearsRemaining`, loop bounds) are `ℕ`;
  quantities the source computes arithmetically (balances, rates, AGI,
  `familySize`, qualifying-payment counts) stay `ℚ`.
* Presentational string fields (`description`, `risks`, `benefits`) are
  omitted from result records: no claim and no computation reads them.
-/

namespace MedDebt

set_option allowUnsafeReducibility true

set_option maxRecDepth 16000

attribute [local semireducible] Rat.add Rat.mul Rat.sub Rat.inv Rat.ofScientific

/-- JavaScript `Math.round`: round half toward +∞, i.e. `⌊q + 1/2⌋`,
returned as a rational (JS has a single number type). -/
def jsRound (q : ℚ) : ℚ := (⌊q + 1/2⌋ : ℤ)

/-- JavaScript `x || fallback` where `x : Option ℚ` models a
number-or-undefined expression: the fallback is taken when `x` is
`undefined` (`none`) or when it is the falsy number `0`. -/
def jsOr (x : Option ℚ) (fallback : ℚ) : ℚ :=
  match x with
  | none => fallback
  | some v => if v = 0 then fallback else v

/-! ## Reference data (`src/core/constants.ts`) -/

/-- 2024 federal poverty guideline base (`POVERTY_LINE_BASE`). -/
def POVERTY_LINE_BASE : ℚ := 15060

/-- Per-person increment (`POVERTY_LINE_PER_PERSON`). -/
def POVERTY_LINE_PER_PERSON : ℚ := 5380

/-- `getPovertyLine(familySize)` from `constants.ts`. -/
def getPovertyLine (familySize : ℚ) : ℚ :=
  POVERTY_LINE_BASE + max 0 (familySize - 1) * POVERTY_LINE_PER_PERSON

/-- Static per-plan IDR parameters (`IDRPlanParams` in `types.ts`). -/
structure IDRPlanParams where
  name : String
  discretionaryIncomePercent : ℚ
  povertyLineMultiplier : ℚ
  forgivenessYears : ℤ
  interestSubsidy : Bool
  capsPaymentAt10YearStandard : Bool
  undergraduateRate : Option ℚ := none
deriving DecidableEq

/-- `IDR_PLANS.SAVE`. -/
def SAVE : IDRPlanParams :=
  { name := "SAVE (Saving on a Valuable Education)"
    discretionaryIncomePercent := 0.10
    povertyLineMultiplier := 2.25
    forgivenessYears := 25
    interestSubsidy := true
    capsPaymentAt10YearStandard := false
    undergraduateRate := some 0.05 }

/-- `IDR_PLANS.PAYE`. -/
def PAYE : IDRPlanParams :=
  { name := "PAYE (Pay As You Earn)"
    discretionaryIncomePercent := 0.10
    povertyLineMultiplier := 1.50
    forgivenessYears := 20
    interestSubsidy := false
    capsPaymentAt10YearStandard := true }

/-- `IDR_PLANS.IBR_NEW`. -/
def IBR_NEW : IDRPlanParams :=
  { name := "IBR (New Borrowers after 2014)"
    discretionaryIncomePercent := 0.10
    povertyLineMultiplier := 1.50
    forgivenessYears := 20
    interestSubsidy := false
    capsPaymentAt10YearStandard := true }

/-- `IDR_PLANS.IBR_OLD`. -/
def IBR_OLD : IDRPlanParams :=
  { name := "IBR (Borrowers before 2014)"
    discretionaryIncomePercent := 0.15
    povertyLineMultiplier := 1.50
    forgivenessYears := 25
    interestSubsidy := false
    capsPaymentAt10YearStandard := true }

/-- `IDR_PLANS.ICR`. -/
def ICR : IDRPlanParams :=
  { name := "ICR (Income-Contingent Repayment)"
    discretionaryIncomePercent := 0.20
    povertyLineMultiplier := 1.00
    forgivenessYears := 25
    interestSubsidy := false
    capsPaymentAt10YearStandard := false }

/-- The `IDR_PLANS` record, as an association list keyed by plan name. -/
def IDR_PLANS : List (String × IDRPlanParams) :=
  [("SAVE", SAVE), ("PAYE", PAYE), ("IBR_NEW", IBR_NEW),
   ("IBR_OLD", IBR_OLD), ("ICR", ICR)]

/-- The plans of the program (the values of `IDR_PLANS`). -/
def allIDRPlans : List IDRPlanParams := IDR_PLANS.map Prod.snd

/-- `TRAINING_SALARIES` from `constants.ts`. -/
def TRAINING_SALARIES : List (String × ℚ) :=
  [("ms4", 0), ("pgy1", 64000), ("pgy2", 66000), ("pgy3", 69000),
   ("pgy4", 72000), ("pgy5", 75000), ("pgy6", 78000), ("pgy7", 81000),
   ("fellow", 85000)]

/-- One federal tax bracket (`TaxBracket` in `types.ts`). -/
structure TaxBracket where
  threshold : ℚ
  rate : ℚ
deriving DecidableEq

/-- `FEDERAL_BRACKETS_SINGLE` (2024). -/
def FEDERAL_BRACKETS_SINGLE : List TaxBracket :=
  [⟨0, 0.10⟩, ⟨11600, 0.12⟩, ⟨47150, 0.22⟩, ⟨100525, 0.24⟩,
   ⟨191950, 0.32⟩, ⟨243725, 0.35⟩, ⟨609350, 0.37⟩]

/-- `FEDERAL_BRACKETS_MFJ` (2024). -/
def FEDERAL_BRACKETS_MFJ : List TaxBracket :=
  [⟨0, 0.10⟩, ⟨23200, 0.12⟩, ⟨94300, 0.22⟩, ⟨201050, 0.24⟩,
   ⟨383900, 0.32⟩, ⟨487450, 0.35⟩, ⟨731200, 0.37⟩]

/-- `FEDERAL_BRACKETS_MFS` (2024). -/
def FEDERAL_BRACKETS_MFS : List TaxBracket :=
  [⟨0, 0.10⟩, ⟨11600, 0.12⟩, ⟨47150, 0.22⟩, ⟨100525, 0.24⟩,
   ⟨191950, 0.32⟩, ⟨243725, 0.35⟩, ⟨365600, 0.37⟩]

/-- `STATE_TAX_RATES` (simplified top marginal state rates). -/
def STATE_TAX_RATES : List (String × ℚ) :=
  [("AL", 0.05), ("AK", 0), ("AZ", 0.025), ("AR", 0.047), ("CA", 0.133),
   ("CO", 0.044), ("CT", 0.0699), ("DE", 0.066), ("FL", 0), ("GA", 0.0549),
   ("HI", 0.11), ("ID", 0.058), ("IL", 0.0495), ("IN", 0.0315), ("IA", 0.06),
   ("KS", 0.057), ("KY", 0.04), ("LA", 0.0425), ("ME", 0.0715), ("MD", 0.0575),
   ("MA", 0.09), ("MI", 0.0425), ("MN", 0.0985), ("MS", 0.05), ("MO", 0.048),
   ("MT", 0.059), ("NE", 0.0584), ("NV", 0), ("NH", 0.05), ("NJ", 0.1075),
   ("NM", 0.059), ("NY", 0.109), ("NC", 0.0475), ("ND", 0.0225), ("OH", 0.035),
   ("OK", 0.0475), ("OR", 0.099), ("PA", 0.0307), ("RI", 0.0599), ("SC", 0.064),
   ("SD", 0), ("TN", 0), ("TX", 0), ("UT", 0.0465), ("VT", 0.0875),
   ("VA", 0.0575), ("WA", 0), ("WV", 0.055), ("WI", 0.0765), ("WY", 0),
   ("DC", 0.105)]

/-- `DEFAULTS.discountRate`. -/
def DEFAULT_discountRate : ℚ := 0.05

/-- `DEFAULTS.incomeGrowthRate`. -/
def DEFAULT_incomeGrowthRate : ℚ := 0.03

/-- `DEFAULTS.refiRate`. -/
def DEFAULT_refiRate : ℚ := 0.055

/-- `DEFAULTS.refiTermYears`. -/
def DEFAULT_refiTermYears : ℕ := 10

/-- `PSLF.requiredPayments`. -/
def PSLF_requiredPayments : ℚ := 120

/-! ## Specialty data (`src/core/specialties.ts`) -/

/-- `SpecialtyData` in `types.ts`. -/
structure SpecialtyData where
  name : String
  medianAttendingSalary : ℚ
  salaryP25 : ℚ
  salaryP75 : ℚ
  typicalTrainingYears : ℚ
  pslfPrevalence : ℚ
deriving DecidableEq

/-- The `other` entry of `SPECIALTIES`, the lookup fallback. -/
def SPECIALTY_OTHER : SpecialtyData :=
  ⟨"Other Specialty", 320000, 250000, 400000, 4, 0.35⟩

/-- The `SPECIALTIES` record, as an association list. -/
def SPECIALTIES : List (String × SpecialtyData) :=
  [("family_medicine", ⟨"Family Medicine", 255000, 210000, 300000, 3, 0.45⟩),
   ("internal_medicine", ⟨"Internal Medicine (General)", 275000, 230000, 330000, 3, 0.40⟩),
   ("pediatrics", ⟨"Pediatrics (General)", 245000, 200000, 290000, 3, 0.55⟩),
   ("med_peds", ⟨"Med-Peds", 260000, 215000, 310000, 4, 0.45⟩),
   ("cardiology", ⟨"Cardiology", 510000, 400000, 650000, 6, 0.30⟩),
   ("gastroenterology", ⟨"Gastroenterology", 495000, 380000, 600000, 6, 0.25⟩),
   ("pulm_crit", ⟨"Pulmonology/Critical Care", 400000, 320000, 480000, 6, 0.40⟩),
   ("nephrology", ⟨"Nephrology", 310000, 260000, 370000, 5, 0.40⟩),
   ("endocrinology", ⟨"Endocrinology", 270000, 220000, 320000, 5, 0.45⟩),
   ("rheumatology", ⟨"Rheumatology", 290000, 240000, 350000, 5, 0.40⟩),
   ("infectious_disease", ⟨"Infectious Disease", 265000, 220000, 315000, 5, 0.50⟩),
   ("hematology_oncology", ⟨"Hematology/Oncology", 440000, 350000, 550000, 6, 0.35⟩),
   ("hospitalist", ⟨"Hospitalist", 310000, 260000, 365000, 3, 0.45⟩),
   ("general_surgery", ⟨"General Surgery", 420000, 340000, 520000, 5, 0.25⟩),
   ("orthopedic_surgery", ⟨"Orthopedic Surgery", 560000, 450000, 750000, 5, 0.15⟩),
   ("neurosurgery", ⟨"Neurosurgery", 650000, 500000, 850000, 7, 0.20⟩),
   ("plastic_surgery", ⟨"Plastic Surgery", 520000, 380000, 700000, 6, 0.10⟩),
   ("cardiothoracic_surgery", ⟨"Cardiothoracic Surgery", 600000, 480000, 780000, 7, 0.25⟩),
   ("vascular_surgery", ⟨"Vascular Surgery", 500000, 400000, 620000, 6, 0.25⟩),
   ("urology", ⟨"Urology", 480000, 380000, 600000, 5, 0.20⟩),
   ("colorectal_surgery", ⟨"Colorectal Surgery", 420000, 340000, 520000, 6, 0.25⟩),
   ("anesthesiology", ⟨"Anesthesiology", 430000, 350000, 520000, 4, 0.25⟩),
   ("radiology", ⟨"Radiology", 470000, 380000, 570000, 5, 0.30⟩),
   ("radiation_oncology", ⟨"Radiation Oncology", 480000, 380000, 580000, 5, 0.35⟩),
   ("emergency_medicine", ⟨"Emergency Medicine", 350000, 290000, 420000, 3, 0.40⟩),
   ("psychiatry", ⟨"Psychiatry", 280000, 230000, 340000, 4, 0.50⟩),
   ("neurology", ⟨"Neurology", 315000, 260000, 380000, 4, 0.40⟩),
   ("dermatology", ⟨"Dermatology", 450000, 350000, 600000, 4, 0.15⟩),
   ("ophthalmology", ⟨"Ophthalmology", 400000, 300000, 550000, 4, 0.15⟩),
   ("pathology", ⟨"Pathology", 320000, 260000, 390000, 4, 0.40⟩),
   ("physical_medicine", ⟨"Physical Medicine & Rehabilitation", 290000, 240000, 350000, 4, 0.35⟩),
   ("ob_gyn", ⟨"Obstetrics & Gynecology", 340000, 275000, 420000, 4, 0.35⟩),
   ("otolaryngology", ⟨"Otolaryngology (ENT)", 420000, 330000, 530000, 5, 0.20⟩),
   ("other", SPECIALTY_OTHER)]

/-- `getSpecialty(key)`: `SPECIALTIES[key] || SPECIALTIES['other']`.
(An object value is never falsy, so only a missing key falls back.) -/
def getSpecialty (key : String) : SpecialtyData :=
  (SPECIALTIES.lookup key).getD SPECIALTY_OTHER

/-! ## Core calculations (`src/core/calculations.ts`) -/

/-- `FilingStatus` in `types.ts`. -/
inductive FilingStatus where
  | single
  | mfj
  | mfs
deriving DecidableEq

open FilingStatus

/-- `calculateIDRPayment(plan, agi, familySize, spouseAgi, filingStatus)`. -/
def calculateIDRPayment (plan : IDRPlanParams) (agi familySize : ℚ)
    (spouseAgi : ℚ := 0) (filingStatus : FilingStatus := single) : ℚ :=
  let incomeForCalc : ℚ := if filingStatus = mfs then agi else agi + spouseAgi
  let povertyLine := getPovertyLine familySize
  let discretionaryIncome := max 0 (incomeForCalc - povertyLine * plan.povertyLineMultiplier)
  let annualPayment := discretionaryIncome * plan.discretionaryIncomePercent
  max 0 (jsRound (annualPayment / 12))

/-- `calculate10YearStandardPayment(balance, interestRate)`. -/
def calculate10YearStandardPayment (balance interestRate : ℚ) : ℚ :=
  let monthlyRate := interestRate / 12
  let numPayments : ℕ := 120
  if monthlyRate = 0 then
    jsRound (balance / numPayments)
  else
    jsRound (balance * (monthlyRate * (1 + monthlyRate) ^ numPayments) /
      ((1 + monthlyRate) ^ numPayments - 1))

/-- `getEffectiveIDRPayment(plan, calculatedPayment, balance, interestRate)`. -/
def getEffectiveIDRPayment (plan : IDRPlanParams) (calculatedPayment balance interestRate : ℚ) : ℚ :=
  if plan.capsPaymentAt10YearStandard then
    min calculatedPayment (calculate10YearStandardPayment balance interestRate)
  else
    calculatedPayment

/-- `YearlyLoanState` in `types.ts` (all fields `Math.round`ed by the producer). -/
structure YearlyLoanState where
  year : ℕ
  startingBalance : ℚ
  interestAccrued : ℚ
  paymentsMade : ℚ
  endingBalance : ℚ
  interestSubsidized : ℚ
  cumulativePayments : ℚ
deriving DecidableEq

/-- One iteration of the month loop inside `projectLoanBalance`.
State: (balance, interestAccrued, interestSubsidized). -/
def loanMonthStep (plan : IDRPlanParams) (interestRate monthlyPayment : ℚ)
    (s : ℚ × ℚ × ℚ) : ℚ × ℚ × ℚ :=
  let monthlyInterest := s.1 * (interestRate / 12)
  let interestAccrued := s.2.1 + monthlyInterest
  if plan.interestSubsidy = true ∧ monthlyPayment < monthlyInterest then
    (s.1, interestAccrued, s.2.2 + (monthlyInterest - monthlyPayment))
  else
    (s.1 + monthlyInterest - monthlyPayment, interestAccrued, s.2.2)

/-- The 12-iteration month loop of `projectLoanBalance`. -/
def loanYearLoop (plan : IDRPlanParams) (interestRate monthlyPayment : ℚ) :
    ℕ → ℚ × ℚ × ℚ → ℚ × ℚ × ℚ
  | 0, s => s
  | n + 1, s => loanYearLoop plan interestRate monthlyPayment n
      (loanMonthStep plan interestRate monthlyPayment s)

/-- The year loop of `projectLoanBalance`: one `YearlyLoanState` per annual
payment, stopping after the first year whose (clamped) balance is ≤ 0. -/
def projectLoanBalanceAux (plan : IDRPlanParams) (interestRate : ℚ) :
    List ℚ → ℚ → ℚ → ℕ → List YearlyLoanState
  | [], _, _, _ => []
  | annualPayment :: rest, balance, cumulativePayments, year =>
    let t := loanYearLoop plan interestRate (annualPayment / 12) 12 (balance, 0, 0)
    let newBalance := max 0 t.1
    let newCumulative := cumulativePayments + annualPayment
    let st : YearlyLoanState :=
      { year := year + 1
        startingBalance := jsRound balance
        interestAccrued := jsRound t.2.1
        paymentsMade := jsRound annualPayment
        endingBalance := jsRound newBalance
        interestSubsidized := jsRound t.2.2
        cumulativePayments := jsRound newCumulative }
    if newBalance ≤ 0 then [st]
    else st :: projectLoanBalanceAux plan interestRate rest newBalance newCumulative (year + 1)

/-- `projectLoanBalance(initialBalance, interestRate, annualPayments, plan)`. -/
def projectLoanBalance (initialBalance interestRate : ℚ) (annualPayments : List ℚ)
    (plan : IDRPlanParams) : List YearlyLoanState :=
  projectLoanBalanceAux plan interestRate annualPayments initialBalance 0 0

/-- The exact (pre-rounding) year-end balances produced by the same loop as
`projectLoanBalance`: one entry per emitted `YearlyLoanState`, its value the
exact `balance` after the year's clamp to 0. -/
def projectLoanBalanceExact (plan : IDRPlanParams) (interestRate : ℚ) :
    List ℚ → ℚ → List ℚ
  | [], _ => []
  | annualPayment :: rest, balance =>
    let t := loanYearLoop plan interestRate (annualPayment / 12) 12 (balance, 0, 0)
    let newBalance := max 0 t.1
    if newBalance ≤ 0 then [newBalance]
    else newBalance :: projectLoanBalanceExact plan interestRate rest newBalance

/-- `getBrackets(filingStatus)`. -/
def getBrackets (filingStatus : FilingStatus) : List TaxBracket :=
  match filingStatus with
  | mfj => FEDERAL_BRACKETS_MFJ
  | mfs => FEDERAL_BRACKETS_MFS
  | single => FEDERAL_BRACKETS_SINGLE

/-- `calculateFederalTax(taxableIncome, filingStatus)`: walk the brackets
from the highest threshold down, taxing the slice above each threshold.
The source iterates indices `length−1 .. 0`; this is a fold over the
reversed bracket list carrying `(tax, remainingIncome)`. -/
def calculateFederalTax (taxableIncome : ℚ) (filingStatus : FilingStatus) : ℚ :=
  let brackets := getBrackets filingStatus
  let r := brackets.reverse.foldl
    (fun (acc : ℚ × ℚ) bracket =>
      if bracket.threshold < acc.2 then
        (acc.1 + (acc.2 - bracket.threshold) * bracket.rate, bracket.threshold)
      else acc)
    (0, taxableIncome)
  jsRound r.1

/-- `estimateTaxOnForgiveness(forgivenAmount, agiInForgivenessYear, state, filingStatus)`.
Note `STATE_TAX_RATES[state] || 0.05` in the source: a missing key — and
also a stored rate of `0`, which is falsy — falls back to 0.05. -/
def estimateTaxOnForgiveness (forgivenAmount agiInForgivenessYear : ℚ)
    (state : String) (filingStatus : FilingStatus := single) : ℚ :=
  if forgivenAmount ≤ 0 then 0
  else
    let taxWithoutForgiveness := calculateFederalTax agiInForgivenessYear filingStatus
    let taxWithForgiveness :=
      calculateFederalTax (agiInForgivenessYear + forgivenAmount) filingStatus
    let federalTax := taxWithForgiveness - taxWithoutForgiveness
    let stateRate := jsOr (STATE_TAX_RATES.lookup state) 0.05
    let stateTax := forgivenAmount * stateRate
    jsRound (federalTax + stateTax)

/-- One side of a `FilingComparison`. -/
structure FilingScenario where
  totalTax : ℚ
  loanPayment : ℚ
  netAnnualCost : ℚ
deriving DecidableEq

/-- `FilingComparison` in `types.ts`. -/
structure FilingComparison where
  mfjScenario : FilingScenario
  mfsScenario : FilingScenario
  recommendation : FilingStatus
  annualSavings : ℚ
deriving DecidableEq

/-- `compareFilingStatus(borrowerAgi, spouseAgi, familySize, plan, loanBalance, interestRate)`. -/
def compareFilingStatus (borrowerAgi spouseAgi familySize : ℚ)
    (plan : IDRPlanParams) (loanBalance interestRate : ℚ) : FilingComparison :=
  let mfjPayment := calculateIDRPayment plan borrowerAgi familySize spouseAgi mfj
  let mfjEffective := getEffectiveIDRPayment plan mfjPayment loanBalance interestRate
  let mfjTax := calculateFederalTax (borrowerAgi + spouseAgi) mfj
  let mfsPayment := calculateIDRPayment plan borrowerAgi familySize 0 mfs
  let mfsEffective := getEffectiveIDRPayment plan mfsPayment loanBalance interestRate
  let mfsBorrowerTax := calculateFederalTax borrowerAgi mfs
  let mfsSpouseTax := calculateFederalTax spouseAgi mfs
  let mfsTotalTax := mfsBorrowerTax + mfsSpouseTax
  let mfjNetCost := mfjEffective * 12 + mfjTax
  let mfsNetCost := mfsEffective * 12 + mfsTotalTax
  { mfjScenario := ⟨mfjTax, mfjEffective * 12, mfjNetCost⟩
    mfsScenario := ⟨mfsTotalTax, mfsEffective * 12, mfsNetCost⟩
    recommendation := if mfjNetCost ≤ mfsNetCost then mfj else mfs
    annualSavings := |mfjNetCost - mfsNetCost| }

/-- The discounting loop of `calculateNPV`: `Σ payments[y] / (1+r)^(y+1)`
for `y = y0, y0+1, …`. -/
def discountedSum (discountRate : ℚ) : List ℚ → ℕ → ℚ
  | [], _ => 0
  | payment :: rest, y => payment / (1 + discountRate) ^ (y + 1) +
      discountedSum discountRate rest (y + 1)

/-- `calculateNPV(annualPayments, forgivenessYear, taxOnForgiveness, discountRate)`. -/
def calculateNPV (annualPayments : List ℚ) (forgivenessYear : ℤ)
    (taxOnForgiveness discountRate : ℚ) : ℚ :=
  let base := discountedSum discountRate annualPayments 0
  let withTax :=
    if 0 < taxOnForgiveness ∧ 0 < forgivenessYear then
      base + taxOnForgiveness / (1 + discountRate) ^ forgivenessYear
    else base
  jsRound withTax

/-- `calculateAmortizationPayment(principal, annualRate, years)`. -/
def calculateAmortizationPayment (principal annualRate : ℚ) (years : ℕ) : ℚ :=
  let monthlyRate := annualRate / 12
  let numPayments : ℕ := years * 12
  if monthlyRate = 0 then
    jsRound (principal / numPayments)
  else
    jsRound (principal * (monthlyRate * (1 + monthlyRate) ^ numPayments) /
      ((1 + monthlyRate) ^ numPayments - 1))

/-- `getDebtToIncomeRatio(totalDebt, expectedAttendingSalary)`. -/
def getDebtToIncomeRatio (totalDebt expectedAttendingSalary : ℚ) : ℚ :=
  jsRound (totalDebt / expectedAttendingSalary * 100) / 100

/-! ## Income projection (`projectIncome` in `calculations.ts`) -/

/-- `CareerInfo` in `types.ts`. `trainingYearsRemaining` is declared `≥ 0`
and used as a whole-year counter, so it is `ℕ` here. -/
structure CareerInfo where
  specialty : String
  currentStage : String
  trainingYearsRemaining : ℕ
  expectedAttendingSalary : Option ℚ := none
deriving DecidableEq

/-- `IncomeProjection` in `types.ts`. -/
structure IncomeProjection where
  year : ℕ
  income : ℚ
  stage : String
deriving DecidableEq

/-- The `stages` array inside `projectIncome`. -/
def trainingStages : List String :=
  ["pgy1", "pgy2", "pgy3", "pgy4", "pgy5", "pgy6", "pgy7", "fellow"]

/-- `stages.indexOf(career.currentStage)` with the source's
`if (stageIndex === -1) stageIndex = 0` correction. -/
def stageIndexOf (currentStage : String) : ℕ :=
  if currentStage ∈ trainingStages then trainingStages.indexOf currentStage else 0

/-- The year loop of `projectIncome`, carrying the mutable
`trainingYearsRemaining` counter: arguments are years still to emit,
the remaining-training counter, and the current year index. -/
def projectIncomeAux (career : CareerInfo) (growthRate : ℚ) (stageIndex : ℕ) :
    ℕ → ℕ → ℕ → List IncomeProjection
  | 0, _, _ => []
  | yearsLeft + 1, remaining, year =>
    if 0 < remaining then
      let stage := trainingStages.getD
        (min (stageIndex + (career.trainingYearsRemaining - remaining))
          (trainingStages.length - 1)) "fellow"
      let baseSalary := jsOr (TRAINING_SALARIES.lookup stage)
        ((TRAINING_SALARIES.lookup "fellow").getD 0)
      let income := baseSalary * (1 + growthRate) ^ year
      ⟨year, jsRound income, stage⟩ ::
        projectIncomeAux career growthRate stageIndex yearsLeft (remaining - 1) (year + 1)
    else
      let attendingYears := year - career.trainingYearsRemaining
      let baseSalary := jsOr career.expectedAttendingSalary
        (getSpecialty career.specialty).medianAttendingSalary
      let income := baseSalary * (1 + growthRate) ^ attendingYears
      ⟨year, jsRound income, "attending"⟩ ::
        projectIncomeAux career growthRate stageIndex yearsLeft remaining (year + 1)

/-- `projectIncome(career, years, growthRate)`. -/
def projectIncome (career : CareerInfo) (years : ℕ)
    (growthRate : ℚ := DEFAULT_incomeGrowthRate) : List IncomeProjection :=
  projectIncomeAux career growthRate (stageIndexOf career.currentStage)
    years career.trainingYearsRemaining 0

/-! ## Strategy calculators (`src/core/strategies.ts`) -/

/-- `LoanPortfolio` in `types.ts`. -/
structure LoanPortfolio where
  totalBalance : ℚ
  weightedInterestRate : ℚ
  loanTypes : List String
  pslfQualifyingPayments : ℚ
  idrQualifyingPayments : ℚ
deriving DecidableEq

/-- `PersonalInfo` in `types.ts`. -/
structure PersonalInfo where
  agi : ℚ
  spouseAgi : ℚ
  filingStatus : FilingStatus
  familySize : ℚ
  state : String
  pslfEligibleEmployer : Bool
deriving DecidableEq

/-- `Preferences` in `types.ts`. -/
structure Preferences where
  discountRate : ℚ
  pslfConfidence : ℚ
  savePlanAvailable : Bool
  riskTolerance : String
deriving DecidableEq

/-- `UserInputs` in `types.ts`. -/
structure UserInputs where
  loans : LoanPortfolio
  personal : PersonalInfo
  career : CareerInfo
  preferences : Preferences
deriving DecidableEq

/-- `StrategyResult` in `types.ts`. `monthlyPaymentMin/Max` model the
source's `monthlyPaymentRange`; `none` models `Math.min(...[]) = Infinity`
(resp. `-Infinity`) when the payment list is empty. The presentational
`description`, `risks` and `benefits` string lists are omitted. -/
structure StrategyResult where
  strategyName : String
  totalPayments : ℚ
  forgivenessAmount : ℚ
  taxOnForgiveness : ℚ
  npv : ℚ
  totalYears : ℤ
  monthlyPaymentMin : Option ℚ
  monthlyPaymentMax : Option ℚ
  yearlyBreakdown : List YearlyLoanState
deriving DecidableEq

/-- `incomeProjection[year]?.income || incomeProjection[incomeProjection.length - 1].income`:
out-of-bounds (including negative) indexing gives `undefined`, and a falsy
(zero) income also falls back to the last entry's income. (On an empty
projection the source would throw; the comparator always passes 30 years.
`0` stands in for that impossible case.) -/
def projectionIncomeAt (proj : List IncomeProjection) (year : ℤ) : ℚ :=
  let lastIncome : ℚ :=
    match proj.getLast? with
    | some p => p.income
    | none => 0
  jsOr (if year < 0 then none else (proj.get? year.toNat).map (·.income)) lastIncome

/-- The per-year effective-payment loop shared verbatim by
`calculatePSLFStrategy` and `calculateIDRStrategy`: for each year,
the capped IDR payment against that year's projected income. -/
def strategyEffectivePayments (inputs : UserInputs) (incomeProjection : List IncomeProjection)
    (plan : IDRPlanParams) (years : ℕ) : List ℚ :=
  (List.range years).map (fun year =>
    let income := projectionIncomeAt incomeProjection year
    let monthlyPayment := calculateIDRPayment plan income inputs.personal.familySize
      inputs.personal.spouseAgi inputs.personal.filingStatus
    getEffectiveIDRPayment plan monthlyPayment inputs.loans.totalBalance
      inputs.loans.weightedInterestRate)

/-- `calculatePSLFStrategy(inputs, incomeProjection, underlyingPlan)`.
(`IDR_PLANS[underlyingPlan]` would be `undefined` for an unknown name and
the source would then crash; every call site passes `'PAYE'`, so the
lookup default is never exercised.) -/
def calculatePSLFStrategy (inputs : UserInputs) (incomeProjection : List IncomeProjection)
    (underlyingPlan : String := "PAYE") : StrategyResult :=
  let plan := (IDR_PLANS.lookup underlyingPlan).getD PAYE
  let paymentsRemaining := PSLF_requiredPayments - inputs.loans.pslfQualifyingPayments
  let yearsRemaining : ℤ := ⌈paymentsRemaining / 12⌉
  let effectivePayments := strategyEffectivePayments inputs incomeProjection plan yearsRemaining.toNat
  let annualPayments := effectivePayments.map (· * 12)
  let monthlyPayments := effectivePayments.flatMap (List.replicate 12)
  let totalPayments := annualPayments.foldl (· + ·) 0
  let yearlyBreakdown := projectLoanBalance inputs.loans.totalBalance
    inputs.loans.weightedInterestRate annualPayments plan
  let finalBalance := jsOr ((yearlyBreakdown.getLast?).map (·.endingBalance)) 0
  let adjustedNPV := calculateNPV annualPayments yearsRemaining 0 inputs.preferences.discountRate
  { strategyName := "PSLF"
    totalPayments := totalPayments
    forgivenessAmount := finalBalance
    taxOnForgiveness := 0
    npv := adjustedNPV
    totalYears := yearsRemaining
    monthlyPaymentMin := monthlyPayments.min?
    monthlyPaymentMax := monthlyPayments.max?
    yearlyBreakdown := yearlyBreakdown }

/-- `calculateIDRStrategy(inputs, incomeProjection, planName)`. -/
def calculateIDRStrategy (inputs : UserInputs) (incomeProjection : List IncomeProjection)
    (planName : String) : StrategyResult :=
  let plan := (IDR_PLANS.lookup planName).getD PAYE
  let years : ℤ := plan.forgivenessYears - ⌊inputs.loans.idrQualifyingPayments / 12⌋
  let effectivePayments := strategyEffectivePayments inputs incomeProjection plan years.toNat
  let annualPayments := effectivePayments.map (· * 12)
  let monthlyPayments := effectivePayments.flatMap (List.replicate 12)
  let totalPayments := annualPayments.foldl (· + ·) 0
  let yearlyBreakdown := projectLoanBalance inputs.loans.totalBalance
    inputs.loans.weightedInterestRate annualPayments plan
  let finalBalance := jsOr ((yearlyBreakdown.getLast?).map (·.endingBalance)) 0
  let forgivenessYearIncome := projectionIncomeAt incomeProjection (years - 1)
  let taxOnForgiveness := estimateTaxOnForgiveness finalBalance forgivenessYearIncome
    inputs.personal.state inputs.personal.filingStatus
  let npv := calculateNPV annualPayments years taxOnForgiveness inputs.preferences.discountRate
  { strategyName := planName
    totalPayments := totalPayments
    forgivenessAmount := finalBalance
    taxOnForgiveness := taxOnForgiveness
    npv := npv
    totalYears := years
    monthlyPaymentMin := monthlyPayments.min?
    monthlyPaymentMax := monthlyPayments.max?
    yearlyBreakdown := yearlyBreakdown }

/-- The year loop building the refinance strategy's simple amortization
breakdown (`calculateRefiStrategy`): arguments are remaining years,
balance, cumulative payments and the 0-based year counter. -/
def refiBreakdownAux (refiRate annualPayment : ℚ) :
    ℕ → ℚ → ℚ → ℕ → List YearlyLoanState
  | 0, _, _, _ => []
  | n + 1, balance, cumulative, year =>
    let interestAccrued := balance * refiRate
    let principalPaid := annualPayment - interestAccrued
    let newBalance := max 0 (balance - principalPaid)
    let newCumulative := cumulative + annualPayment
    { year := year + 1
      startingBalance := jsRound balance
      interestAccrued := jsRound interestAccrued
      paymentsMade := jsRound annualPayment
      endingBalance := jsRound newBalance
      interestSubsidized := 0
      cumulativePayments := jsRound newCumulative } ::
      refiBreakdownAux refiRate annualPayment n newBalance newCumulative (year + 1)

/-- `calculateRefiStrategy(inputs, incomeProjection, refiRate, termYears)`.
(The source formats the term and rate into the display name; here the
name is the constant `"Refinance"` — no computation reads it.) -/
def calculateRefiStrategy (inputs : UserInputs)
    (refiRate : ℚ := DEFAULT_refiRate) (termYears : ℕ := DEFAULT_refiTermYears) :
    StrategyResult :=
  let monthlyPayment := calculateAmortizationPayment inputs.loans.totalBalance refiRate termYears
  let annualPayment := monthlyPayment * 12
  let annualPayments := List.replicate termYears annualPayment
  let totalPayments := annualPayment * termYears
  let yearlyBreakdown := refiBreakdownAux refiRate annualPayment termYears
    inputs.loans.totalBalance 0 0
  let npv := calculateNPV annualPayments 0 0 inputs.preferences.discountRate
  { strategyName := "Refinance"
    totalPayments := totalPayments
    forgivenessAmount := 0
    taxOnForgiveness := 0
    npv := npv
    totalYears := termYears
    monthlyPaymentMin := some monthlyPayment
    monthlyPaymentMax := some monthlyPayment
    yearlyBreakdown := yearlyBreakdown }

/-- `compareAllStrategies(inputs)`: PSLF (if employer-eligible), the IDR
plans (`SAVE` prepended when available, then `PAYE`, `IBR_NEW`), both
refinance variants, sorted ascending by `npv`. `Array.prototype.sort`
with comparator `(a, b) => a.npv - b.npv` is a stable sort by `npv`,
modelled by `List.mergeSort`. -/
def compareAllStrategies (inputs : UserInputs) : List StrategyResult :=
  let incomeProjection := projectIncome inputs.career 30
  let pslfResults :=
    if inputs.personal.pslfEligibleEmployer then
      [calculatePSLFStrategy inputs incomeProjection "PAYE"]
    else []
  let plansToCompare :=
    if inputs.preferences.savePlanAvailable then ["SAVE", "PAYE", "IBR_NEW"]
    else ["PAYE", "IBR_NEW"]
  let idrResults := plansToCompare.map (calculateIDRStrategy inputs incomeProjection)
  let refiResults := [calculateRefiStrategy inputs 0.055 10, calculateRefiStrategy inputs 0.06 7]
  (pslfResults ++ idrResults ++ refiResults).mergeSort (fun a b => decide (a.npv ≤ b.npv))

/-! ## Aggressive payoff calculator (`calculateAggressivePayoff`) -/

/-- `AggressivePayoffParams`. The two year counts are whole-year loop
bounds, hence `ℕ`. -/
structure AggressivePayoffParams where
  loanBalance : ℚ
  interestRate : ℚ
  trainingYearsRemaining : ℕ
  attendingSalary : ℚ
  livingExpenses : ℚ
  aggressiveYears : ℕ
  discountRate : ℚ
deriving DecidableEq

/-- One `yearlyBreakdown` entry of `AggressivePayoffResult`. -/
structure PayoffEntry where
  year : ℕ
  payment : ℚ
  principal : ℚ
  interest : ℚ
  endingBalance : ℚ
  phase : String
deriving DecidableEq

/-- The running state across the three phase loops of
`calculateAggressivePayoff`: the mutable `balance`, `totalPayments`,
`totalInterest`, `year`, `months` and `yearlyBreakdown`. -/
structure PayoffState where
  balance : ℚ
  totalPayments : ℚ
  totalInterest : ℚ
  year : ℕ
  months : ℕ
  breakdown : List PayoffEntry
deriving DecidableEq

/-- The within-year accumulator of a phase's month loop. -/
structure MonthAcc where
  balance : ℚ
  yearPayment : ℚ
  yearInterest : ℚ
  yearPrincipal : ℚ
  totalPayments : ℚ
  totalInterest : ℚ
  months : ℕ
deriving DecidableEq

/-- One month of phase 1 (training, interest-only): the loop guard
`m < 12 && balance > 0` is the leading `if`; once the balance is ≤ 0 the
step is the identity, exactly as the source loop stops. `principal` is
clamped at 0 and the balance is not clamped (it cannot go negative since
the payment is capped at `balance + interest`). -/
def trainingMonth (interestRate monthlyPayment : ℚ) (s : MonthAcc) : MonthAcc :=
  if 0 < s.balance then
    let monthInterest := s.balance * (interestRate / 12)
    let payment := min monthlyPayment (s.balance + monthInterest)
    let principal := max 0 (payment - monthInterest)
    { balance := s.balance + monthInterest - payment
      yearPayment := s.yearPayment + payment
      yearInterest := s.yearInterest + monthInterest
      yearPrincipal := s.yearPrincipal + principal
      totalPayments := s.totalPayments + payment
      totalInterest := s.totalInterest + monthInterest
      months := s.months + 1 }
  else s

/-- One month of phase 2/3 (aggressive or standard payoff): `principal`
is not clamped and the balance is clamped at 0. -/
def payoffMonth (interestRate monthlyPayment : ℚ) (s : MonthAcc) : MonthAcc :=
  if 0 < s.balance then
    let monthInterest := s.balance * (interestRate / 12)
    let payment := min monthlyPayment (s.balance + monthInterest)
    let principal := payment - monthInterest
    { balance := max 0 (s.balance + monthInterest - payment)
      yearPayment := s.yearPayment + payment
      yearInterest := s.yearInterest + monthInterest
      yearPrincipal := s.yearPrincipal + principal
      totalPayments := s.totalPayments + payment
      totalInterest := s.totalInterest + monthInterest
      months := s.months + 1 }
  else s

/-- Iterate a month step `n` times (the `for (m = 0; m < 12 && …)` loop). -/
def monthsLoop (step : MonthAcc → MonthAcc) : ℕ → MonthAcc → MonthAcc
  | 0, s => s
  | n + 1, s => monthsLoop step n (step s)

/-- Run one year of a phase: 12 months of `step` starting from the phase
state, then append the rounded breakdown entry tagged `phase`. -/
def payoffYear (step : MonthAcc → MonthAcc) (phase : String) (s : PayoffState) : PayoffState :=
  let a := monthsLoop step 12
    { balance := s.balance, yearPayment := 0, yearInterest := 0, yearPrincipal := 0
      totalPayments := s.totalPayments, totalInterest := s.totalInterest, months := s.months }
  let entry : PayoffEntry :=
    { year := s.year + 1
      payment := jsRound a.yearPayment
      principal := jsRound a.yearPrincipal
      interest := jsRound a.yearInterest
      endingBalance := jsRound (max 0 a.balance)
      phase := phase }
  { balance := a.balance
    totalPayments := a.totalPayments
    totalInterest := a.totalInterest
    year := s.year + 1
    months := a.months
    breakdown := s.breakdown ++ [entry] }

/-- A phase's year loop: `for (y = 0; y < n && balance > 0; y++)`. -/
def phaseLoop (step : MonthAcc → MonthAcc) (phase : String) :
    ℕ → PayoffState → PayoffState
  | 0, s => s
  | n + 1, s =>
    if 0 < s.balance then phaseLoop step phase n (payoffYear step phase s)
    else s

/-- `AggressivePayoffResult` (with its `yearlyBreakdown`). -/
structure AggressivePayoffResult where
  totalPayments : ℚ
  totalInterest : ℚ
  yearsToPayoff : ℕ
  monthsToPayoff : ℕ
  npv : ℚ
  yearlyBreakdown : List PayoffEntry
  monthlyPaymentDuringTraining : ℚ
  monthlyPaymentAggressive : ℚ
  monthlyPaymentStandard : ℚ
deriving DecidableEq

/-- The source's `afterTaxIncome` local: `attendingSalary × (1 − 0.30)`. -/
def aggressiveAfterTaxIncome (params : AggressivePayoffParams) : ℚ :=
  params.attendingSalary * (1 - 0.30)

/-- The source's `annualAggressivePayment` local. -/
def annualAggressivePayment (params : AggressivePayoffParams) : ℚ :=
  max 0 (aggressiveAfterTaxIncome params - params.livingExpenses)

/-- The source's `monthlyAggressivePayment` local. -/
def monthlyAggressivePayment (params : AggressivePayoffParams) : ℚ :=
  annualAggressivePayment params / 12

/-- The source's `monthlyTrainingPayment` (= `monthlyInterestOnly`) local. -/
def monthlyTrainingPayment (params : AggressivePayoffParams) : ℚ :=
  params.loanBalance * params.interestRate / 12

/-- The state after phase 1 (training years, interest-only). -/
def aggressivePhase1 (params : AggressivePayoffParams) : PayoffState :=
  phaseLoop (trainingMonth params.interestRate (monthlyTrainingPayment params)) "training"
    params.trainingYearsRemaining ⟨params.loanBalance, 0, 0, 0, 0, []⟩

/-- The state after phase 2 (aggressive payoff years). -/
def aggressivePhase2 (params : AggressivePayoffParams) : PayoffState :=
  phaseLoop (payoffMonth params.interestRate (monthlyAggressivePayment params)) "aggressive"
    params.aggressiveYears (aggressivePhase1 params)

/-- The state after phase 3 (standard 10-year schedule on any remainder;
skipped entirely when the balance is already zero). -/
def aggressivePhase3 (params : AggressivePayoffParams) : PayoffState :=
  if 0 < (aggressivePhase2 params).balance then
    phaseLoop (payoffMonth params.interestRate
        (calculateAmortizationPayment (aggressivePhase2 params).balance params.interestRate 10))
      "standard" 10 (aggressivePhase2 params)
  else aggressivePhase2 params

/-- `calculateAggressivePayoff(params)`: phase 1 interest-only during
training, phase 2 aggressive surplus-income payoff, phase 3 a standard
10-year schedule on any remainder. -/
def calculateAggressivePayoff (params : AggressivePayoffParams) : AggressivePayoffResult :=
  let s3 := aggressivePhase3 params
  let annualPayments := s3.breakdown.map (·.payment)
  let npv := calculateNPV annualPayments 0 0 params.discountRate
  let balanceAfterAggressive := jsOr
    ((s3.breakdown.find? (fun y => y.phase = "aggressive" ∧ 0 < y.endingBalance)).map
      (·.endingBalance)) 0
  let monthlyStandardPayment :=
    if 0 < balanceAfterAggressive then
      calculateAmortizationPayment balanceAfterAggressive params.interestRate 10
    else 0
  { totalPayments := jsRound s3.totalPayments
    totalInterest := jsRound s3.totalInterest
    yearsToPayoff := s3.year
    monthsToPayoff := s3.months
    npv := npv
    yearlyBreakdown := s3.breakdown
    monthlyPaymentDuringTraining := jsRound (monthlyTrainingPayment params)
    monthlyPaymentAggressive := jsRound (monthlyAggressivePayment params)
    monthlyPaymentStandard := jsRound monthlyStandardPayment }

/-! ## Numeric-string sanitizer (`sanitizeNumericValue` in `utils.ts`) -/

/-- Digit run → natural number (value of a decimal digit string). -/
def digitsToNat (l : List Char) : ℕ :=
  l.foldl (fun n c => 10 * n + (c.toNat - 48)) 0

/-- The optional exponent part of a JS float literal (`e`/`E` already
consumed): an optional sign then digits; an empty digit run contributes
exponent 0 (the exponent marker is then not part of the parsed prefix). -/
def parseExponentPart (cs : List Char) : ℤ :=
  let sign : ℤ := if cs.head? = some '-' then -1 else 1
  let cs1 := if cs.head? = some '-' ∨ cs.head? = some '+' then cs.tail else cs
  let ds := cs1.takeWhile Char.isDigit
  if ds.isEmpty then 0 else sign * digitsToNat ds

/-- ECMAScript `parseFloat`: skip leading whitespace, then parse the
longest prefix of the form `[+-]? digits [. digits]? [(e|E) [+-]? digits]?`
(with at least one digit before or after the decimal point); any trailing
junk is ignored. `none` models `NaN` (no valid prefix). The `Infinity`
literal is not representable in `ℚ` and is not modelled; no input this
repository feeds the sanitizer uses it. -/
def parseFloat (cs0 : List Char) : Option ℚ :=
  let cs := cs0.dropWhile Char.isWhitespace
  let sign : ℚ := if cs.head? = some '-' then -1 else 1
  let cs1 := if cs.head? = some '-' ∨ cs.head? = some '+' then cs.tail else cs
  let intDigits := cs1.takeWhile Char.isDigit
  let rest1 := cs1.dropWhile Char.isDigit
  let fracDigits := if rest1.head? = some '.' then rest1.tail.takeWhile Char.isDigit else []
  let rest2 := if rest1.head? = some '.' then rest1.tail.dropWhile Char.isDigit else rest1
  if intDigits.isEmpty ∧ fracDigits.isEmpty then none
  else
    let mantissa : ℚ := (digitsToNat intDigits : ℚ) +
      (digitsToNat fracDigits : ℚ) / 10 ^ fracDigits.length
    let exp : ℤ :=
      if rest2.head? = some 'e' ∨ rest2.head? = some 'E' then parseExponentPart rest2.tail
      else 0
    some (sign * mantissa * (10 : ℚ) ^ exp)

/-- `String.prototype.trim`: strip whitespace from both ends. -/
def trimChars (l : List Char) : List Char :=
  ((l.dropWhile Char.isWhitespace).reverse.dropWhile Char.isWhitespace).reverse

/-- `sanitizeNumericValue(value)`: `parseFloat(value.replace(/,/g, '').trim()) || 0`.
`replace(/,/g, '')` removes every comma; `|| 0` maps `NaN` (and `±0`) to `0`. -/
def sanitizeNumericValue (value : String) : ℚ :=
  jsOr (parseFloat (trimChars (value.toList.filter (fun c => c ≠ ',')))) 0

/-! ## General lemmas -/

theorem jsRound_le_jsRound {a b : ℚ} (h : a ≤ b) : jsRound a ≤ jsRound b := by
  unfold jsRound
  exact_mod_cast Int.floor_le_floor (by linarith)

theorem jsRound_zero : jsRound 0 = 0 := by norm_num [jsRound]

/-! ## C2 — `estimateTaxOnForgiveness`: zero amount, and state-rate comparison -/

/-- C2: `estimateTaxOnForgiveness` returns 0 on a zero forgiven amount; but
the claimed strict ordering "nonzero-table-rate state > zero-table-rate
state" is violated by the code: `STATE_TAX_RATES[state] || 0.05` treats the
stored rate `0` as falsy, so a zero-rate state (TX) is taxed at the 5%
fallback, which exceeds a nonzero table rate such as AZ's 2.5%. At
amount 100000, income 300000, single, the AZ tax is strictly *below* the
TX tax. -/
theorem c2_estimateTax_zero_and_state_rate_violation :
    (∀ (agi : ℚ) (state : String) (fs : FilingStatus),
      estimateTaxOnForgiveness 0 agi state fs = 0) ∧
    STATE_TAX_RATES.lookup "AZ" = some 0.025 ∧
    STATE_TAX_RATES.lookup "TX" = some 0 ∧
    estimateTaxOnForgiveness 100000 300000 "AZ" FilingStatus.single <
      estimateTaxOnForgiveness 100000 300000 "TX" FilingStatus.single := by
  refine ⟨fun agi state fs => ?_, by decide, by decide, by decide⟩
  unfold estimateTaxOnForgiveness
  norm_num

/-! ## C3 — spouse-income dependence of `calculateIDRPayment` -/

/-- C3 counterexample: the claim "for `mfj` with `spouseAgi > 0`, changing
the spouse income changes the result" is false as stated: spouse incomes 1
and 2 are both positive and distinct, yet the PAYE MFJ payment is 353 in
both cases (the 1/12-rounding absorbs the change). -/
theorem c3_counterexample :
    (0 : ℚ) < 1 ∧ (0 : ℚ) < 2 ∧ (1 : ℚ) ≠ 2 ∧
    calculateIDRPayment PAYE 65000 1 1 FilingStatus.mfj =
      calculateIDRPayment PAYE 65000 1 2 FilingStatus.mfj := by decide

/-- C3 (amended): under `mfs` the payment never depends on `spouseAgi`
(invariance for all inputs); under `mfj` the payment *can* depend on the
spouse income — there are inputs with two positive spouse incomes giving
different payments — though a small enough change can leave the rounded
payment unchanged. -/
theorem c3_mfs_independent_mfj_dependent :
    (∀ (plan : IDRPlanParams) (agi familySize spouseAgi1 spouseAgi2 : ℚ),
      calculateIDRPayment plan agi familySize spouseAgi1 FilingStatus.mfs =
        calculateIDRPayment plan agi familySize spouseAgi2 FilingStatus.mfs) ∧
    (∃ (plan : IDRPlanParams) (agi familySize spouseAgi1 spouseAgi2 : ℚ),
      plan ∈ allIDRPlans ∧ 0 < spouseAgi1 ∧ 0 < spouseAgi2 ∧
      calculateIDRPayment plan agi familySize spouseAgi1 FilingStatus.mfj ≠
        calculateIDRPayment plan agi familySize spouseAgi2 FilingStatus.mfj) := by
  constructor
  · intro plan agi familySize spouseAgi1 spouseAgi2
    rfl
  · exact ⟨PAYE, 65000, 1, 1, 100000, by decide, by decide, by decide, by decide⟩

/-! ## C4 — the IDR payment formula and the PAYE spot check -/

/-- C4: for `familySize ≥ 1`, `calculateIDRPayment` equals
`max(0, round(max(0, income − (15060 + (familySize−1)·5380) · m) · p / 12))`
with `income` the borrower AGI alone for `mfs` and borrower+spouse
otherwise; and PAYE at agi 65000, familySize 1, no spouse, single, gives a
monthly payment of 353. -/
theorem c4_idr_payment_formula (plan : IDRPlanParams) (agi familySize spouseAgi : ℚ)
    (filingStatus : FilingStatus) (hf : 1 ≤ familySize) :
    calculateIDRPayment plan agi familySize spouseAgi filingStatus =
      max 0 (jsRound (max 0
        ((if filingStatus = FilingStatus.mfs then agi else agi + spouseAgi) -
          (15060 + (familySize - 1) * 5380) * plan.povertyLineMultiplier) *
        plan.discretionaryIncomePercent / 12)) ∧
    calculateIDRPayment PAYE 65000 1 0 FilingStatus.single = 353 := by
  constructor
  · simp only [calculateIDRPayment, getPovertyLine, POVERTY_LINE_BASE, POVERTY_LINE_PER_PERSON]
    rw [max_eq_right (by linarith : (0 : ℚ) ≤ familySize - 1)]
  · decide

/-- C4 witness: the formula at PAYE, agi 65000, familySize 1, spouseAgi 0,
single. -/
theorem c4_idr_payment_formula_witness :
    calculateIDRPayment PAYE 65000 1 0 FilingStatus.single =
      max 0 (jsRound (max 0
        ((if FilingStatus.single = FilingStatus.mfs then (65000 : ℚ) else 65000 + 0) -
          (15060 + ((1 : ℚ) - 1) * 5380) * PAYE.povertyLineMultiplier) *
        PAYE.discretionaryIncomePercent / 12)) ∧
    calculateIDRPayment PAYE 65000 1 0 FilingStatus.single = 353 :=
  c4_idr_payment_formula PAYE 65000 1 0 FilingStatus.single (by norm_num)

/-! ## C8 — the numeric-string sanitizer -/

/-- C8: the sanitizer strips thousands-separator commas and surrounding
whitespace before parsing and returns 0 for empty or unparseable input:
`"250,000" ↦ 250000` (not 250), `"" ↦ 0`, `"abc" ↦ 0`,
`" -1,000 " ↦ -1000`. -/
theorem c8_sanitizeNumericValue_spec :
    sanitizeNumericValue "250,000" = 250000 ∧
    sanitizeNumericValue "" = 0 ∧
    sanitizeNumericValue "abc" = 0 ∧
    sanitizeNumericValue " -1,000 " = -1000 := by decide

/-! ## C9 — `compareFilingStatus` recommendation and savings -/

/-- C9: `compareFilingStatus` recommends `mfj` exactly when the MFJ net
annual cost (12 × effective MFJ payment + MFJ federal tax) is at most the
MFS net annual cost (12 × effective MFS payment + both spouses' MFS
federal taxes) — ties favor `mfj` — and `annualSavings` is the absolute
difference of the two net costs. -/
theorem c9_compareFilingStatus_net_cost (borrowerAgi spouseAgi familySize : ℚ)
    (plan : IDRPlanParams) (loanBalance interestRate : ℚ) :
    ((compareFilingStatus borrowerAgi spouseAgi familySize plan loanBalance
        interestRate).recommendation = FilingStatus.mfj ↔
      12 * getEffectiveIDRPayment plan
          (calculateIDRPayment plan borrowerAgi familySize spouseAgi FilingStatus.mfj)
          loanBalance interestRate +
        calculateFederalTax (borrowerAgi + spouseAgi) FilingStatus.mfj ≤
      12 * getEffectiveIDRPayment plan
          (calculateIDRPayment plan borrowerAgi familySize 0 FilingStatus.mfs)
          loanBalance interestRate +
        (calculateFederalTax borrowerAgi FilingStatus.mfs +
          calculateFederalTax spouseAgi FilingStatus.mfs)) ∧
    (compareFilingStatus borrowerAgi spouseAgi familySize plan loanBalance
        interestRate).annualSavings =
      |(12 * getEffectiveIDRPayment plan
          (calculateIDRPayment plan borrowerAgi familySize spouseAgi FilingStatus.mfj)
          loanBalance interestRate +
        calculateFederalTax (borrowerAgi + spouseAgi) FilingStatus.mfj) -
       (12 * getEffectiveIDRPayment plan
          (calculateIDRPayment plan borrowerAgi familySize 0 FilingStatus.mfs)
          loanBalance interestRate +
        (calculateFederalTax borrowerAgi FilingStatus.mfs +
          calculateFederalTax spouseAgi FilingStatus.mfs))| := by
  simp only [compareFilingStatus]
  constructor
  · split_ifs with h
    · exact iff_of_true rfl (by linarith)
    · refine iff_of_false (by simp) (fun hc => h (by linarith))
  · congr 1
    ring

/-! ## C5 — NPV of a constant stream vs its undiscounted sum -/

theorem discountedSum_replicate_lt (p discountRate : ℚ) (hp : 0 < p) (hr : 0 < discountRate) :
    ∀ (n y : ℕ), 1 ≤ n → discountedSum discountRate (List.replicate n p) y < n * p := by
  intro n
  induction n with
  | zero => intro y h; omega
  | succ n ih =>
    intro y _
    rw [List.replicate_succ]
    simp only [discountedSum]
    have hterm : p / (1 + discountRate) ^ (y + 1) < p := by
      apply div_lt_self hp
      exact one_lt_pow₀ (by linarith) (Nat.succ_ne_zero y)
    cases n with
    | zero =>
      simp only [List.replicate, discountedSum]
      push_cast
      linarith
    | succ m =>
      have hrest := ih (y + 1) (Nat.succ_le_succ (Nat.zero_le m))
      push_cast
      push_cast at hrest
      linarith

/-- C5 counterexample: the claim fails as stated because `calculateNPV`
rounds to a whole currency unit. For the one-payment stream `[0.9]` and
`discountRate = 0.1`, the exact NPV is `9/11 ≈ 0.818`, which rounds to 1 —
*larger* than the undiscounted sum 0.9. -/
theorem c5_counterexample :
    calculateNPV (List.replicate 1 (9/10)) 0 0 (1/10) = 1 ∧
    ¬ calculateNPV (List.replicate 1 (9/10)) 0 0 (1/10) <
        (List.replicate 1 ((9 : ℚ)/10)).length * (9/10) := by decide

/-- C5 (amended): for every non-empty constant stream of a positive annual
payment and every positive discount rate, the exact (pre-rounding) NPV is
strictly less than the undiscounted sum; consequently `calculateNPV`
(which rounds half-up, and can therefore exceed the exact sum by less than
half a unit) is at most the rounded undiscounted sum. -/
theorem c5_npv_below_undiscounted_sum (n : ℕ) (p discountRate : ℚ)
    (hn : 1 ≤ n) (hp : 0 < p) (hr : 0 < discountRate) :
    discountedSum discountRate (List.replicate n p) 0 < n * p ∧
    calculateNPV (List.replicate n p) 0 0 discountRate ≤ jsRound (n * p) := by
  have h := discountedSum_replicate_lt p discountRate hp hr n 0 hn
  refine ⟨h, ?_⟩
  unfold calculateNPV
  simp only [lt_irrefl, false_and, if_false]
  exact jsRound_le_jsRound (le_of_lt h)

/-- C5 witness: the amended claim at the concrete stream of five annual
payments of 10000 with a 5% discount rate. -/
theorem c5_npv_below_undiscounted_sum_witness :
    discountedSum (1/20) (List.replicate 5 10000) 0 < (5 : ℕ) * (10000 : ℚ) ∧
    calculateNPV (List.replicate 5 10000) 0 0 (1/20) ≤ jsRound ((5 : ℕ) * (10000 : ℚ)) :=
  c5_npv_below_undiscounted_sum 5 10000 (1/20) (by norm_num) (by norm_num) (by norm_num)

/-! ## C7 — `calculateIDRPayment` is non-increasing in `familySize` -/

/-- C7: for every plan of the program and fixed AGI, spouse AGI and filing
status, the IDR payment at a larger family size is at most the payment at
a smaller family size. -/
theorem c7_payment_antitone_in_familySize (plan : IDRPlanParams)
    (hplan : plan ∈ allIDRPlans) (agi spouseAgi : ℚ) (filingStatus : FilingStatus)
    (f1 f2 : ℚ) (hf : f1 ≤ f2) :
    calculateIDRPayment plan agi f2 spouseAgi filingStatus ≤
      calculateIDRPayment plan agi f1 spouseAgi filingStatus := by
  have hplanL : plan ∈ [SAVE, PAYE, IBR_NEW, IBR_OLD, ICR] := by
    simpa [allIDRPlans, IDR_PLANS] using hplan
  have hmult : 0 ≤ plan.povertyLineMultiplier := by
    fin_cases hplanL <;> norm_num [SAVE, PAYE, IBR_NEW, IBR_OLD, ICR]
  have hpct : 0 ≤ plan.discretionaryIncomePercent := by
    fin_cases hplanL <;> norm_num [SAVE, PAYE, IBR_NEW, IBR_OLD, ICR]
  have hpl : getPovertyLine f1 ≤ getPovertyLine f2 := by
    simp only [getPovertyLine, POVERTY_LINE_BASE, POVERTY_LINE_PER_PERSON]
    have hmax : max 0 (f1 - 1) ≤ max 0 (f2 - 1) := max_le_max le_rfl (by linarith)
    linarith [mul_le_mul_of_nonneg_right hmax (by norm_num : (0 : ℚ) ≤ 5380)]
  have h2 : getPovertyLine f1 * plan.povertyLineMultiplier ≤
      getPovertyLine f2 * plan.povertyLineMultiplier :=
    mul_le_mul_of_nonneg_right hpl hmult
  simp only [calculateIDRPayment]
  apply max_le_max le_rfl
  apply jsRound_le_jsRound
  gcongr

/-- C7 witness: PAYE, agi 100000, single, family sizes 1 ≤ 4. -/
theorem c7_payment_antitone_witness :
    PAYE ∈ allIDRPlans ∧ (1 : ℚ) ≤ 4 ∧
    calculateIDRPayment PAYE 100000 4 0 FilingStatus.single ≤
      calculateIDRPayment PAYE 100000 1 0 FilingStatus.single :=
  ⟨by decide, by norm_num,
    c7_payment_antitone_in_familySize PAYE (by decide) 100000 0 FilingStatus.single 1 4
      (by norm_num)⟩

/-! ## C6 — `projectLoanBalance` stops at the first zero-balance year -/

/-- The `endingBalance` fields of the emitted states are exactly the
roundings of the exact year-end balances (`projectLoanBalanceExact`). -/
theorem projectLoanBalance_endingBalances (plan : IDRPlanParams) (interestRate : ℚ) :
    ∀ (ps : List ℚ) (b cum : ℚ) (yr : ℕ),
      (projectLoanBalanceAux plan interestRate ps b cum yr).map (fun s => s.endingBalance) =
        (projectLoanBalanceExact plan interestRate ps b).map jsRound := by
  intro ps
  induction ps with
  | nil => intro b cum yr; rfl
  | cons ap rest ih =>
    intro b cum yr
    simp only [projectLoanBalanceAux, projectLoanBalanceExact]
    split_ifs with h
    · simp
    · simp only [List.map_cons, ih]

/-- Every exact year-end balance except possibly the last one is strictly
positive: the loop stops at the first year whose exact balance reaches 0. -/
theorem projectLoanBalanceExact_pos (plan : IDRPlanParams) (interestRate : ℚ) :
    ∀ (ps : List ℚ) (b : ℚ) (i : ℕ) (x : ℚ),
      (projectLoanBalanceExact plan interestRate ps b).get? i = some x →
      i + 1 < (projectLoanBalanceExact plan interestRate ps b).length → 0 < x := by
  intro ps
  induction ps with
  | nil => intro b i x hx hlen; simp [projectLoanBalanceExact] at hx
  | cons ap rest ih =>
    intro b i x hx hlen
    simp only [projectLoanBalanceExact] at hx hlen
    by_cases hle : max 0 (loanYearLoop plan interestRate (ap / 12) 12 (b, 0, 0)).1 ≤ 0
    · rw [if_pos hle] at hlen
      simp at hlen
    · rw [if_neg hle] at hx hlen
      cases i with
      | zero =>
        simp only [List.get?_cons_zero, Option.some_inj] at hx
        rw [← hx]
        exact lt_of_not_le hle
      | succ j =>
        simp only [List.get?_cons_succ] at hx
        simp only [List.length_cons] at hlen
        exact ih _ j x hx (by omega)

/-- C6 (amended): the sequence returned by `projectLoanBalance` contains no
state after the first year whose **exact** balance reaches zero: all exact
year-end balances except possibly the last are strictly positive, and the
`endingBalance` fields are the roundings of those exact balances (so a
non-final snapshot can *display* `endingBalance = 0` when its exact balance
lies in (0, 1/2), but emission genuinely stops at the first exact zero,
even if more annual-payment entries remain). -/
theorem c6_stops_at_first_exact_zero_balance (initialBalance interestRate : ℚ)
    (annualPayments : List ℚ) (plan : IDRPlanParams) (i : ℕ) (x : ℚ)
    (hx : (projectLoanBalanceExact plan interestRate annualPayments initialBalance).get? i
      = some x)
    (hlen : i + 1 <
      (projectLoanBalanceExact plan interestRate annualPayments initialBalance).length) :
    ((projectLoanBalance initialBalance interestRate annualPayments plan).map
        (fun s => s.endingBalance) =
      (projectLoanBalanceExact plan interestRate annualPayments initialBalance).map jsRound) ∧
    0 < x :=
  ⟨projectLoanBalance_endingBalances plan interestRate annualPayments initialBalance 0 0,
    projectLoanBalanceExact_pos plan interestRate annualPayments initialBalance i x hx hlen⟩

/-- C6 counterexample: the claim is false as stated about the rounded
`endingBalance` field. With balance 100.3, zero interest and annual
payments [100, 0.5], the first year ends at exact balance 0.3 > 0 (so a
second year is emitted), yet its rounded `endingBalance` is already 0:
a non-final snapshot with `endingBalance = 0`. -/
theorem c6_counterexample :
    (projectLoanBalance (1003/10) 0 [100, 1/2] PAYE).map (fun s => s.endingBalance) =
      [0, 0] ∧
    (projectLoanBalance (1003/10) 0 [100, 1/2] PAYE).length = 2 := by decide

/-- C6 witness: the amended claim at balance 100.3, zero interest,
payments [100, 0.5], index 0 (exact balances [0.3, 0]). -/
theorem c6_stops_witness :
    ((projectLoanBalance (1003/10) 0 [100, 1/2] PAYE).map (fun s => s.endingBalance) =
      (projectLoanBalanceExact PAYE 0 [100, 1/2] (1003/10)).map jsRound) ∧
    (0 : ℚ) < 3/10 :=
  c6_stops_at_first_exact_zero_balance (1003/10) 0 [100, 1/2] PAYE 0 (3/10)
    (by decide) (by decide)

/-! ## C10 — training phase of `calculateAggressivePayoff` freezes the balance -/

/-- One training month at balance `B > 0` with the interest-only payment
`B·(rate/12)` pays exactly the accrued interest: the balance and the
year-principal accumulator are unchanged. -/
theorem trainingMonth_fixed (interestRate B pmt : ℚ) (hB : 0 < B)
    (hpmt : pmt = B * (interestRate / 12)) (s : MonthAcc) (hs : s.balance = B) :
    (trainingMonth interestRate pmt s).balance = B ∧
    (trainingMonth interestRate pmt s).yearPrincipal = s.yearPrincipal := by
  unfold trainingMonth
  rw [hs, if_pos hB]
  have hmin : min pmt (B + B * (interestRate / 12)) = pmt :=
    min_eq_left (by rw [hpmt]; linarith)
  constructor
  · simp only [hmin]
    rw [hpmt]; ring
  · simp only [hmin]
    rw [hpmt]
    simp

/-- Iterating training months from balance `B > 0` with payment
`B·(rate/12)` leaves both the balance and the year-principal unchanged. -/
theorem monthsLoop_training_fixed (interestRate B pmt : ℚ) (hB : 0 < B)
    (hpmt : pmt = B * (interestRate / 12)) :
    ∀ (n : ℕ) (s : MonthAcc), s.balance = B →
      (monthsLoop (trainingMonth interestRate pmt) n s).balance = B ∧
      (monthsLoop (trainingMonth interestRate pmt) n s).yearPrincipal = s.yearPrincipal := by
  intro n
  induction n with
  | zero => intro s hs; exact ⟨hs, rfl⟩
  | succ n ih =>
    intro s hs
    simp only [monthsLoop]
    obtain ⟨h1, h2⟩ := trainingMonth_fixed interestRate B pmt hB hpmt s hs
    obtain ⟨h3, h4⟩ := ih _ h1
    exact ⟨h3, h4.trans h2⟩

/-- One training *year* from balance `B > 0`: the state's balance stays `B`
and the appended breakdown entry has principal 0, ending balance
`jsRound B` and phase `"training"`. -/
theorem payoffYear_training_props (interestRate B pmt : ℚ) (hB : 0 < B)
    (hpmt : pmt = B * (interestRate / 12)) (s : PayoffState) (hs : s.balance = B) :
    (payoffYear (trainingMonth interestRate pmt) "training" s).balance = B ∧
    ∀ e ∈ (payoffYear (trainingMonth interestRate pmt) "training" s).breakdown,
      e ∈ s.breakdown ∨
        (e.principal = 0 ∧ e.endingBalance = jsRound B ∧ e.phase = "training") := by
  have hm := monthsLoop_training_fixed interestRate B pmt hB hpmt 12
    ⟨s.balance, 0, 0, 0, s.totalPayments, s.totalInterest, s.months⟩ hs
  unfold payoffYear
  refine ⟨hm.1, ?_⟩
  intro e he
  simp only [List.mem_append, List.mem_singleton] at he
  rcases he with he | he
  · exact Or.inl he
  · right
    subst he
    refine ⟨?_, ?_, rfl⟩
    · simp only [hm.2]
      exact jsRound_zero
    · simp only [hm.1, max_eq_right (le_of_lt hB)]

/-- The whole training phase loop from balance `B > 0`: the balance stays
`B`, and every breakdown entry is either inherited from the initial state
or satisfies the training-entry properties. -/
theorem phaseLoop_training_props (interestRate B pmt : ℚ) (hB : 0 < B)
    (hpmt : pmt = B * (interestRate / 12)) :
    ∀ (n : ℕ) (s : PayoffState), s.balance = B →
      (phaseLoop (trainingMonth interestRate pmt) "training" n s).balance = B ∧
      ∀ e ∈ (phaseLoop (trainingMonth interestRate pmt) "training" n s).breakdown,
        e ∈ s.breakdown ∨
          (e.principal = 0 ∧ e.endingBalance = jsRound B ∧ e.phase = "training") := by
  intro n
  induction n with
  | zero => intro s hs; exact ⟨hs, fun e he => Or.inl he⟩
  | succ n ih =>
    intro s hs
    simp only [phaseLoop]
    rw [hs, if_pos hB]
    obtain ⟨hy1, hy2⟩ := payoffYear_training_props interestRate B pmt hB hpmt s hs
    obtain ⟨hl1, hl2⟩ := ih _ hy1
    refine ⟨hl1, ?_⟩
    intro e he
    rcases hl2 e he with h | h
    · exact hy2 e h
    · exact Or.inr h

/-- Any phase loop only ever appends entries tagged with its own phase
name: a breakdown entry is inherited or carries the loop's tag. -/
theorem phaseLoop_phase_mem (step : MonthAcc → MonthAcc) (phase : String) :
    ∀ (n : ℕ) (s : PayoffState), ∀ e ∈ (phaseLoop step phase n s).breakdown,
      e ∈ s.breakdown ∨ e.phase = phase := by
  intro n
  induction n with
  | zero => intro s e he; exact Or.inl he
  | succ n ih =>
    intro s e he
    simp only [phaseLoop] at he
    split_ifs at he with h
    · rcases ih _ e he with h1 | h1
      · unfold payoffYear at h1
        simp only [List.mem_append, List.mem_singleton] at h1
        rcases h1 with h2 | h2
        · exact Or.inl h2
        · subst h2; exact Or.inr rfl
      · exact Or.inr h1
    · exact Or.inl he

/-- C10: for `loanBalance > 0`, `trainingYearsRemaining ≥ 1` and
`interestRate ≥ 0`, the loan balance is unchanged throughout the training
phase: every `yearlyBreakdown` entry tagged `"training"` has
`endingBalance` equal to the rounding of the initial `loanBalance` and
`principal = 0` (the interest-only payment exactly equals each month's
accrued interest). -/
theorem c10_training_phase_frozen (params : AggressivePayoffParams)
    (hbal : 0 < params.loanBalance) (_htrain : 1 ≤ params.trainingYearsRemaining)
    (_hrate : 0 ≤ params.interestRate) (e : PayoffEntry)
    (he : e ∈ (calculateAggressivePayoff params).yearlyBreakdown)
    (hphase : e.phase = "training") :
    e.endingBalance = jsRound params.loanBalance ∧ e.principal = 0 := by
  have he3 : e ∈ (aggressivePhase3 params).breakdown := by
    simpa [calculateAggressivePayoff] using he
  have he2 : e ∈ (aggressivePhase2 params).breakdown := by
    unfold aggressivePhase3 at he3
    split_ifs at he3 with hcond
    · rcases phaseLoop_phase_mem _ "standard" 10 (aggressivePhase2 params) e he3 with h | h
      · exact h
      · exact absurd (hphase ▸ h) (by decide)
    · exact he3
  have he1 : e ∈ (aggressivePhase1 params).breakdown := by
    unfold aggressivePhase2 at he2
    rcases phaseLoop_phase_mem _ "aggressive" params.aggressiveYears
      (aggressivePhase1 params) e he2 with h | h
    · exact h
    · exact absurd (hphase ▸ h) (by decide)
  have hp := phaseLoop_training_props params.interestRate params.loanBalance
    (monthlyTrainingPayment params) hbal (by unfold monthlyTrainingPayment; ring)
    params.trainingYearsRemaining ⟨params.loanBalance, 0, 0, 0, 0, []⟩ rfl
  unfold aggressivePhase1 at he1
  rcases hp.2 e he1 with h | h
  · simp at h
  · exact ⟨h.2.1, h.1⟩

/-- C10 witness: loan 1200 at 0% with one training year; attending salary
12000/7 (so the aggressive monthly payment is exactly 100), no living
expenses, one aggressive year, zero discount. The single training entry is
`⟨1, 0, 0, 0, 1200, "training"⟩`. -/
theorem c10_training_phase_frozen_witness :
    (⟨1, 0, 0, 0, 1200, "training"⟩ : PayoffEntry).endingBalance =
      jsRound (⟨1200, 0, 1, 12000/7, 0, 1, 0⟩ : AggressivePayoffParams).loanBalance ∧
    (⟨1, 0, 0, 0, 1200, "training"⟩ : PayoffEntry).principal = 0 :=
  c10_training_phase_frozen ⟨1200, 0, 1, 12000/7, 0, 1, 0⟩
    (by decide) (by decide) (by decide) ⟨1, 0, 0, 0, 1200, "training"⟩
    (by decide) (by decide)

/-! ## C1 — `compareAllStrategies` output is sorted ascending by `npv` -/

/-- Sorting any strategy list by the `npv` comparator yields a list whose
adjacent pairs are ordered by `npv` (the comparator is transitive and
total). -/
theorem mergeSort_npv_chain (l : List StrategyResult) :
    List.Chain' (fun a b : StrategyResult => a.npv ≤ b.npv)
      (l.mergeSort (fun a b => decide (a.npv ≤ b.npv))) := by
  have h := @List.sorted_mergeSort StrategyResult
    (fun a b : StrategyResult => decide (a.npv ≤ b.npv))
    (fun a b c hab hbc => by
      simp only [decide_eq_true_eq] at *
      exact le_trans hab hbc)
    (fun a b => by
      simp only [Bool.or_eq_true, decide_eq_true_eq]
      exact le_total a.npv b.npv)
    l
  have h2 := h.chain'
  simpa using h2

/-- C1: for every `UserInputs` record, the list returned by
`compareAllStrategies` is sorted ascending by `npv`: every adjacent pair
of results satisfies `results[i].npv ≤ results[i+1].npv`. -/
theorem c1_compareAllStrategies_sorted_by_npv (inputs : UserInputs) :
    List.Chain' (fun a b : StrategyResult => a.npv ≤ b.npv)
      (compareAllStrategies inputs) := by
  unfold compareAllStrategies
  exact mergeSort_npv_chain _

end MedDebt
